import Mathlib

/-!
Shallow embedding of the TierRanker video-export rendering pipeline
(`src/app/api/export-video/route.ts`): audio-section duration
normalization, frame budgeting per animation phase, reveal-order
derivation from the drag history, the squeeze and center-stage
animation kinematics, the image cache, and the request handler's
resource lifecycle. Machine floats are modelled as exact rationals
(the computations involved are plain field arithmetic), and the
sinusoidal jitter uses `Real.sin`.
-/

namespace TierRanker

/-- Kind of a narration audio section (`AudioSection.type`). -/
inductive SectionType
  | intro
  | item
  | conclusion
deriving DecidableEq, Repr

/-- One narration section of the request body (`AudioSection`).
`audioBlob` holds the base64 payload when present; `duration` is the
caller-declared nominal duration in seconds. -/
structure AudioSection where
  type : SectionType
  text : String
  audioBlob : Option String
  duration : ℚ
  isTTS : Bool
deriving DecidableEq, Repr

/-- A ranked entity (`RankingItem`). -/
structure RankingItem where
  id : String
  name : String
  image : Option String
deriving DecidableEq, Repr

/-- A rank bucket (`RankingTier`): ordered items, display color class. -/
structure RankingTier where
  id : String
  name : String
  color : String
  items : List RankingItem
deriving DecidableEq, Repr

/-- One drag-history record (`DragHistoryEntry`); `timestamp` is the
`Date.now()` value at drop time. -/
structure DragHistoryEntry where
  itemId : String
  itemName : String
  targetTierId : String
  targetTierName : String
  timestamp : ℤ
deriving DecidableEq, Repr

/-- The ranking document of the request body (`RankingData`). -/
structure RankingData where
  tiers : List RankingTier
  unrankedItems : List RankingItem
  dragHistory : Option (List DragHistoryEntry)
deriving DecidableEq, Repr

/-- Text-length based duration estimate for TTS sections:
`Math.max(2, section.text.length / 4)`. -/
def ttsEstimate (s : AudioSection) : ℚ :=
  max 2 ((s.text.length : ℚ) / 4)

/-- Fallback duration used by `generateFrames` when no exact probed
duration is available: the declared duration when positive, else the
TTS estimate, else the hard default `3.84`. Mirrors the body of the
`audioSections.map` at the top of `generateFrames`. -/
def fallbackDuration (s : AudioSection) : ℚ :=
  if 0 < s.duration then s.duration
  else if s.isTTS = true ∧ s.text ≠ "" then ttsEstimate s
  else 384 / 100

/-- `sectionDurations?.[index]` lookup. -/
def providedAt (provided : Option (List ℚ)) (i : ℕ) : Option ℚ :=
  provided.bind (fun l => l[i]?)

/-- Duration normalization for one section: a provided probed duration
is kept when positive (`!duration || duration <= 0` guard), otherwise
the fallback chain runs. -/
def normalizeDuration (dOpt : Option ℚ) (s : AudioSection) : ℚ :=
  match dOpt with
  | some d => if d ≤ 0 then fallbackDuration s else d
  | none => fallbackDuration s

/-- Helper for `withDurations`, threading the running index of the
`audioSections.map((section, index) => ...)` traversal. -/
def withDurationsAux (provided : Option (List ℚ)) : ℕ → List AudioSection → List AudioSection
  | _, [] => []
  | i, s :: rest =>
      { s with duration := normalizeDuration (providedAt provided i) s }
        :: withDurationsAux provided (i + 1) rest

/-- `audioSectionsWithDuration`: every section's duration replaced by
the normalized one. -/
def withDurations (sections : List AudioSection) (provided : Option (List ℚ)) : List AudioSection :=
  withDurationsAux provided 0 sections

/-- Frames emitted for a phase of duration `d`: `Math.floor(d * fps)`
at the fixed `fps = 30` (the enclosing `for` loop runs that many
times; a negative floor runs zero times, hence `toNat`). -/
def framesOf (d : ℚ) : ℕ :=
  (⌊d * 30⌋).toNat

/-- Duration of the intro phase: the first section of kind `intro`,
with `introSection?.duration || 3` semantics. -/
def introDurationOf (ss : List AudioSection) : ℚ :=
  match ss.find? (fun s => decide (s.type = SectionType.intro)) with
  | some s => if s.duration = 0 then 3 else s.duration
  | none => 3

/-- Duration of the conclusion phase (`conclusionSection?.duration || 3`). -/
def conclusionDurationOf (ss : List AudioSection) : ℚ :=
  match ss.find? (fun s => decide (s.type = SectionType.conclusion)) with
  | some s => if s.duration = 0 then 3 else s.duration
  | none => 3

/-- Number of frames of the intro phase. -/
def introFramesCount (ss : List AudioSection) : ℕ :=
  framesOf (introDurationOf ss)

/-- Number of frames of the conclusion phase. -/
def conclusionFramesCount (ss : List AudioSection) : ℕ :=
  framesOf (conclusionDurationOf ss)

/-- The sections of kind `item`, in order
(`audioSectionsWithDuration.filter(s => s.type === 'item')`). -/
def itemSectionsOf (ss : List AudioSection) : List AudioSection :=
  ss.filter (fun s => decide (s.type = SectionType.item))

/-- Duration of the `n`-th reveal sub-phase:
`itemSections[itemIndex]?.duration || 2`. -/
def itemDurationAt (ss : List AudioSection) (n : ℕ) : ℚ :=
  match (itemSectionsOf ss)[n]? with
  | some s => if s.duration = 0 then 2 else s.duration
  | none => 2

/-- Number of frames of the `n`-th reveal sub-phase. -/
def itemFramesCount (ss : List AudioSection) (n : ℕ) : ℕ :=
  framesOf (itemDurationAt ss n)

/-- `needsCenterStage = itemDuration > 4`: theatrical mode marker of
the `n`-th reveal sub-phase. -/
def needsCenterStage (ss : List AudioSection) (n : ℕ) : Bool :=
  decide (4 < itemDurationAt ss n)

/-- The animating item's kinematic state in one frame: drawn center
position and drawn size. -/
structure AnimPoint where
  x : ℚ
  y : ℚ
  size : ℚ
deriving DecidableEq, Repr

/-- Center-stage (theatrical) kinematics of
`drawMovingItemWithCenterStage`, as a pure function of progress and
the target-slot coordinates: 0 to 20 percent move-and-grow from the
fixed start `(960, 1000)` to the center `(960, 400)`, 20 to 80 percent
hold at the center at size `150`, then move-and-shrink to the target. -/
def centerStageState (targetX targetY : ℚ) (progress : ℚ) : AnimPoint :=
  let centerX : ℚ := 960
  let centerY : ℚ := 400
  let centerSize : ℚ := 150
  let startX : ℚ := 960
  let startY : ℚ := 1000
  let moveToCenter : ℚ := 2 / 10
  let stayAtCenter : ℚ := 6 / 10
  let moveToTarget : ℚ := 2 / 10
  if progress ≤ moveToCenter then
    let sp := progress / moveToCenter
    ⟨startX + (centerX - startX) * sp, startY + (centerY - startY) * sp,
      100 + (centerSize - 100) * sp⟩
  else if progress ≤ moveToCenter + stayAtCenter then
    ⟨centerX, centerY, centerSize⟩
  else
    let sp := (progress - moveToCenter - stayAtCenter) / moveToTarget
    ⟨centerX + (targetX - centerX) * sp, centerY + (targetY - centerY) * sp,
      centerSize + (100 - centerSize) * sp⟩

/-- An entry of the reveal order: a `RankingItem` spread together with
the tier name and color (`{ ...item, tierName, tierColor }`). -/
structure RevealItem where
  id : String
  name : String
  image : Option String
  tierName : String
  tierColor : Option String
deriving DecidableEq, Repr

/-- Stable ascending sort of the drag history by timestamp
(`[...dragHistory].sort((a, b) => a.timestamp - b.timestamp)`;
JS array sort is stable, observably identical to insertion sort). -/
def sortedHistory (l : List DragHistoryEntry) : List DragHistoryEntry :=
  l.insertionSort (fun a b => a.timestamp ≤ b.timestamp)

/-- Resolution of a drag-history entry against the final document:
the target tier is looked up by id, then the item by id inside that
tier; the entry yields a reveal entry only when both lookups succeed
(`if (item && tier) ... return null`). -/
def lookupReveal (rd : RankingData) (e : DragHistoryEntry) : Option RevealItem :=
  match rd.tiers.find? (fun t => decide (t.id = e.targetTierId)) with
  | none => none
  | some t =>
    match t.items.find? (fun i => decide (i.id = e.itemId)) with
    | none => none
    | some i => some ⟨i.id, i.name, i.image, t.name, some t.color⟩

/-- Reveal order used when no drag history exists: tier order, then
insertion order within each tier, then the unranked items. -/
def fallbackReveal (rd : RankingData) : List RevealItem :=
  (rd.tiers.flatMap fun t =>
    t.items.map fun i => ⟨i.id, i.name, i.image, t.name, some t.color⟩)
    ++ rd.unrankedItems.map fun i => ⟨i.id, i.name, i.image, "未分类", some "#gray"⟩

/-- `allItems` of `generateFrames`: the reveal order of the animation
phase. -/
def allItems (rd : RankingData) : List RevealItem :=
  match rd.dragHistory with
  | some h => if 0 < h.length then (sortedHistory h).filterMap (lookupReveal rd) else fallbackReveal rd
  | none => fallbackReveal rd

/-- Whether a drag-history entry contributes an occurrence of the item
with id `x` to the reveal order. -/
def resolvesTo (rd : RankingData) (x : String) (e : DragHistoryEntry) : Bool :=
  match lookupReveal rd e with
  | some r => decide (r.id = x)
  | none => false

/-- `needsPositionReplacement`: the incoming item's final slot is not
the last slot of its (final) tier, so already-placed items must be
squeezed (`tier.items.length > 1 && targetItemIndex < tier.items.length - 1`). -/
def needsPositionReplacement (tier : RankingTier) (targetItemIndex : ℕ) : Bool :=
  decide (1 < tier.items.length) && decide (targetItemIndex < tier.items.length - 1)

/-- Drawn position (arguments of the `drawItemInTier` call, including
its `y + 10` offset) of one already-placed item during a reveal
sub-phase. `sameTier` is `tierName === item.tierName`; the squeeze
branch applies when the placed item sits at or after the incoming
item's target index and replacement is needed. -/
noncomputable def placedItemDrawPos (sameTier needsRepl : Bool)
    (targetItemIndex indexInTier placedTierIndex : ℕ) (progress : ℝ) : ℝ × ℝ :=
  if sameTier = true ∧ targetItemIndex ≤ indexInTier ∧ needsRepl = true then
    let pushProgress : ℝ := min 1 (progress * 1.5)
    let y : ℝ := 150 + (placedTierIndex : ℝ) * (120 + 20)
    let x : ℝ := 290 + ((indexInTier : ℝ) + pushProgress) * 110
    if pushProgress < 1 then
      let shake : ℝ := Real.sin (progress * Real.pi * 8) * (1 - pushProgress) * 2
      (x + shake, (y + shake) + 10)
    else
      (x, y + 10)
  else
    (290 + (indexInTier : ℝ) * 110, (150 + (placedTierIndex : ℝ) * (120 + 20)) + 10)

/-- Per-section outcome of `processAudio`: the `-t` value handed to
the silence synthesizer when no raw audio exists (`none` for the
transcode branch), and the value recorded in `sectionDurations`. -/
structure SectionOut where
  silentClip : Option ℚ
  recorded : ℚ
deriving DecidableEq, Repr

/-- Oracle for the external tools while processing one section:
whether the transcode subprocess succeeds, and the probed duration
(`none` models a probe failure, i.e. the caught exception / NaN). -/
structure SectionOracle where
  transcodeOk : Bool
  probe : Option ℚ
deriving DecidableEq, Repr

/-- `section.duration || 3`. -/
def fallbackDecl (s : AudioSection) : ℚ :=
  if s.duration = 0 then 3 else s.duration

/-- Processing of one audio section in `processAudio`. With raw audio:
transcode (a failure is fatal and propagates), then record the probed
duration when positive, else `section.duration || 3`. Without raw
audio: synthesize silence of the declared duration (`|| 3`),
overridden by the text-length estimate for TTS sections with text;
the same value is recorded. -/
def processSection (oc : SectionOracle) (s : AudioSection) : Except Unit SectionOut :=
  match s.audioBlob with
  | some _ =>
    if oc.transcodeOk = false then Except.error ()
    else
      Except.ok ⟨none,
        match oc.probe with
        | some d => if 0 < d then d else fallbackDecl s
        | none => fallbackDecl s⟩
  | none =>
    let duration0 := fallbackDecl s
    let duration := if s.isTTS = true ∧ s.text ≠ "" then ttsEstimate s else duration0
    Except.ok ⟨some duration, duration⟩

/-- The per-section loop of `processAudio` over the whole request. -/
def processAudio (ocs : List SectionOracle) (sections : List AudioSection) :
    Except Unit (List SectionOut) :=
  (sections.zip ocs).mapM fun p => processSection p.2 p.1

/-- One entry per cached decode; keys are image source strings,
values stand for decoded bitmap objects. -/
abbrev ImageCache := List (String × ℕ)

/-- Result of `loadImageWithCache`: the decoded bitmap (`none` models
the propagated load error), the cache afterwards, and how many
underlying fetch/decode attempts ran. -/
structure LoadResult where
  result : Option ℕ
  cache : ImageCache
  fetches : ℕ
deriving DecidableEq, Repr

/-- `loadImageWithCache`: a cache hit answers without fetching; a miss
fetches/decodes once, inserting into the cache only on success — a
failed decode is rethrown and leaves the cache untouched. -/
def loadImageWithCache (decode : String → Option ℕ) (cache : ImageCache) (src : String) :
    LoadResult :=
  match cache.lookup src with
  | some img => ⟨some img, cache, 0⟩
  | none =>
    match decode src with
    | some img => ⟨some img, (src, img) :: cache, 1⟩
    | none => ⟨none, cache, 1⟩

/-- What `drawItemInTier` paints inside the cell frame. -/
inductive CellRender
  | framedImage (img : ℕ)
  | gradientPlaceholder
deriving DecidableEq, Repr

/-- `drawItemInTier`'s control flow around image loading: a load
error is caught and the gradient placeholder (`drawDefaultItemStyle`)
is drawn instead; an item without an image also gets the placeholder. -/
def drawItemInTier (decode : String → Option ℕ) (cache : ImageCache) (item : RankingItem) :
    CellRender × ImageCache :=
  match item.image with
  | some src =>
    let r := loadImageWithCache decode cache src
    match r.result with
    | some img => (CellRender.framedImage img, r.cache)
    | none => (CellRender.gradientPlaceholder, r.cache)
  | none => (CellRender.gradientPlaceholder, cache)

/-- Response of the `POST` handler. -/
inductive PostOutcome
  | videoResponse
  | errorJson (status : ℕ)
deriving DecidableEq, Repr

/-- Success/failure of each stage of the pipeline, plus the
content-length precheck. -/
structure RenderOutcomes where
  bodyTooLarge : Bool
  audioOk : Bool
  framesOk : Bool
  encodeOk : Bool
deriving DecidableEq, Repr

/-- Job-scoped resources: the temp working directory and the
module-level image cache. -/
structure JobState where
  workdirExists : Bool
  cache : ImageCache
deriving DecidableEq, Repr

/-- `cleanupTempFiles(tempDir)`: recursive forced removal of the
working directory. -/
def cleanupTempFiles (st : JobState) : JobState :=
  { st with workdirExists := false }

/-- `imageCache.clear()`. -/
def clearImageCache (st : JobState) : JobState :=
  { st with cache := [] }

/-- Control flow of the `POST` handler at the resource level: the 413
precheck runs before the working directory is created; afterwards any
stage failure jumps to the `catch` block, which clears the image cache
and answers 500 — and the success path removes the working directory,
clears the cache and returns the video. -/
def runPost (oc : RenderOutcomes) (st : JobState) : PostOutcome × JobState :=
  if oc.bodyTooLarge = true then (PostOutcome.errorJson 413, st)
  else
    let st1 : JobState := { st with workdirExists := true }
    if oc.audioOk = false then (PostOutcome.errorJson 500, clearImageCache st1)
    else if oc.framesOk = false then (PostOutcome.errorJson 500, clearImageCache st1)
    else if oc.encodeOk = false then (PostOutcome.errorJson 500, clearImageCache st1)
    else (PostOutcome.videoResponse, clearImageCache (cleanupTempFiles st1))

/-- Concrete item `x`, used by the reveal-order inputs below. -/
def exItemX : RankingItem := ⟨"x", "X", none⟩

/-- A one-tier document whose drag history holds two events for the
same item and the same target tier, at timestamps 1 and 2. -/
def exRD2 : RankingData :=
  ⟨[⟨"A", "A", "bg-red-300", [exItemX]⟩], [],
    some [⟨"x", "X", "A", "A", 1⟩, ⟨"x", "X", "A", "A", 2⟩]⟩

/-- Two-tier document after a cross-tier reassignment of `x` from tier
`A` to tier `B`: the final document holds `x` only in `B`, and the
history holds the stale `A` event and the final `B` event. -/
def exRD3 : RankingData :=
  ⟨[⟨"A", "A", "bg-red-300", []⟩, ⟨"B", "B", "bg-blue-300", [exItemX]⟩], [],
    some [⟨"x", "X", "A", "A", 1⟩, ⟨"x", "X", "B", "B", 2⟩]⟩

/-- Narration sections whose intro and conclusion both declare a
3.33-second duration. -/
def c3Secs : List AudioSection :=
  [⟨SectionType.intro, "", none, 333 / 100, false⟩,
   ⟨SectionType.conclusion, "", none, 333 / 100, false⟩]

/-- Narration sections holding a conclusion but no intro section. -/
def c10Secs : List AudioSection :=
  [⟨SectionType.conclusion, "", none, 5, false⟩]

/-- A tier holding two items, target index 0: the squeeze trigger
configuration of the witness. -/
def c5Tier : RankingTier :=
  ⟨"t", "T", "bg-red-300", [exItemX, ⟨"y", "Y", none⟩]⟩

/-- A non-TTS section without raw audio whose declared nominal
duration is 0. -/
def c6Sec : AudioSection :=
  ⟨SectionType.item, "", none, 0, false⟩

/-- A TTS section without raw audio, with text and a declared duration. -/
def c6SecTTS : AudioSection :=
  ⟨SectionType.item, "hello", none, 7, true⟩

/-- A section carrying raw audio whose declared nominal duration is 0. -/
def c7Sec : AudioSection :=
  ⟨SectionType.item, "", some "data:audio/mpeg;base64,AAAA", 0, false⟩

/-- A section carrying raw audio with declared duration 5. -/
def c7SecPos : AudioSection :=
  ⟨SectionType.item, "", some "data:audio/mpeg;base64,AAAA", 5, false⟩

/-- Decode oracle of the cache witness: source "a" decodes to 7,
everything else fails. -/
def c8Decode : String → Option ℕ :=
  fun s => if s = "a" then some 7 else none

/-- An item whose image reference is the failing source "b". -/
def c8Item : RankingItem := ⟨"i", "I", some "b"⟩

end TierRanker

namespace TierRanker

/-- All-positivity of normalized durations: helper fact used to show
the `|| 3` and `|| 2` guards never rewrite a normalized duration. -/
theorem fallbackDuration_pos (s : AudioSection) : 0 < fallbackDuration s := by
  unfold fallbackDuration
  split
  · assumption
  · split
    · unfold ttsEstimate
      exact lt_of_lt_of_le (by norm_num) (le_max_left _ _)
    · norm_num

theorem normalizeDuration_pos (dOpt : Option ℚ) (s : AudioSection) :
    0 < normalizeDuration dOpt s := by
  unfold normalizeDuration
  cases dOpt with
  | none => exact fallbackDuration_pos s
  | some d =>
    by_cases h : d ≤ 0
    · simp only [if_pos h]
      exact fallbackDuration_pos s
    · simp only [if_neg h]
      exact lt_of_not_ge h

theorem withDurationsAux_pos (provided : Option (List ℚ)) :
    ∀ (i : ℕ) (l : List AudioSection), ∀ s ∈ withDurationsAux provided i l, 0 < s.duration := by
  intro i l
  induction l generalizing i with
  | nil => intro s hs; simp [withDurationsAux] at hs
  | cons a rest ih =>
    intro s hs
    simp only [withDurationsAux, List.mem_cons] at hs
    cases hs with
    | inl h => subst h; exact normalizeDuration_pos _ _
    | inr h => exact ih (i + 1) s h

theorem withDurations_pos (sections : List AudioSection) (provided : Option (List ℚ)) :
    ∀ s ∈ withDurations sections provided, 0 < s.duration :=
  withDurationsAux_pos provided 0 sections

/-- C3: when an intro section and a conclusion section are found and
carry positive (normalized) durations, the intro phase emits exactly
`floor(d_i * 30)` frames and the conclusion phase exactly
`floor(d_c * 30)` frames. -/
theorem c3_intro_conclusion_frames (ss : List AudioSection) (si sc : AudioSection)
    (hi : ss.find? (fun s => decide (s.type = SectionType.intro)) = some si)
    (hc : ss.find? (fun s => decide (s.type = SectionType.conclusion)) = some sc)
    (hip : 0 < si.duration) (hcp : 0 < sc.duration) :
    introFramesCount ss = (⌊si.duration * 30⌋).toNat
      ∧ conclusionFramesCount ss = (⌊sc.duration * 30⌋).toNat := by
  constructor
  · unfold introFramesCount introDurationOf
    rw [hi]
    show framesOf (if si.duration = 0 then 3 else si.duration) = (⌊si.duration * 30⌋).toNat
    rw [if_neg (ne_of_gt hip)]
    rfl
  · unfold conclusionFramesCount conclusionDurationOf
    rw [hc]
    show framesOf (if sc.duration = 0 then 3 else sc.duration) = (⌊sc.duration * 30⌋).toNat
    rw [if_neg (ne_of_gt hcp)]
    rfl

/-- C3 witness: 3.33-second intro and conclusion durations yield 99
frames each at 30 fps. -/
theorem c3_witness : introFramesCount c3Secs = 99 ∧ conclusionFramesCount c3Secs = 99 := by
  have h := c3_intro_conclusion_frames c3Secs
    ⟨SectionType.intro, "", none, 333 / 100, false⟩
    ⟨SectionType.conclusion, "", none, 333 / 100, false⟩
    rfl rfl (by norm_num) (by norm_num)
  have h99 : ((⌊(333 / 100 : ℚ) * 30⌋ : ℤ)).toNat = 99 := by
    have h : (⌊(333 / 100 : ℚ) * 30⌋ : ℤ) = 99 := by norm_num
    rw [h]
    rfl
  exact ⟨h.1.trans h99, h.2.trans h99⟩

/-- C10: independently of each other, when the narration sections
contain no intro section the intro phase substitutes the 3-second
default and emits `floor(3 * 30) = 90` frames, and when they contain
no conclusion section the conclusion phase does the same — whatever
the other phase's sections look like. -/
theorem c10_missing_section_defaults (ss : List AudioSection) :
    (ss.find? (fun s => decide (s.type = SectionType.intro)) = none →
        introFramesCount ss = 90)
    ∧ (ss.find? (fun s => decide (s.type = SectionType.conclusion)) = none →
        conclusionFramesCount ss = 90) := by
  have h90 : framesOf 3 = 90 := by
    unfold framesOf
    have h : (⌊(3 : ℚ) * 30⌋ : ℤ) = 90 := by norm_num
    rw [h]
    rfl
  constructor
  · intro hi
    unfold introFramesCount introDurationOf
    rw [hi]
    exact h90
  · intro hc
    unfold conclusionFramesCount conclusionDurationOf
    rw [hc]
    exact h90

/-- C10 witness: a narration list holding a conclusion but no intro
still gets the 90-frame intro default, and an empty narration list
gets the 90-frame conclusion default. -/
theorem c10_witness : introFramesCount c10Secs = 90 ∧ conclusionFramesCount [] = 90 :=
  ⟨(c10_missing_section_defaults c10Secs).1 rfl, (c10_missing_section_defaults []).2 rfl⟩

/-- C9: over the normalized sections, the `n`-th reveal sub-phase
emits `floor(d * 30)` frames where `d` is the duration of the `n`-th
item-kind section, positionally matched; when the item-kind sections
run out, the fixed 2-second default gives `60` frames. -/
theorem c9_item_subphase_frames (sections : List AudioSection) (provided : Option (List ℚ))
    (n : ℕ) :
    itemFramesCount (withDurations sections provided) n
      = match (itemSectionsOf (withDurations sections provided))[n]? with
        | some s => (⌊s.duration * 30⌋).toNat
        | none => 60 := by
  cases h : (itemSectionsOf (withDurations sections provided))[n]? with
  | none =>
    unfold itemFramesCount itemDurationAt
    rw [h]
    show framesOf 2 = 60
    unfold framesOf
    have h60 : (⌊(2 : ℚ) * 30⌋ : ℤ) = 60 := by norm_num
    rw [h60]
    rfl
  | some s =>
    have hmem : s ∈ itemSectionsOf (withDurations sections provided) :=
      List.getElem?_mem h
    have hmem2 : s ∈ withDurations sections provided := List.mem_of_mem_filter hmem
    have hpos := withDurations_pos sections provided s hmem2
    unfold itemFramesCount itemDurationAt
    rw [h]
    show framesOf (if s.duration = 0 then 2 else s.duration) = (⌊s.duration * 30⌋).toNat
    rw [if_neg (ne_of_gt hpos)]
    rfl

/-- C4: a reveal sub-phase is theatrical exactly when its matched
duration exceeds 4 seconds, and in center-stage mode the animating
item at progress 0.5 sits at the fixed center `(960, 400)` with size
`150`, for every target-slot coordinate pair. -/
theorem c4_theatrical_center_stage (ss : List AudioSection) (n : ℕ) (targetX targetY : ℚ) :
    (needsCenterStage ss n = true ↔ 4 < itemDurationAt ss n)
      ∧ centerStageState targetX targetY (1 / 2) = ⟨960, 400, 150⟩ := by
  constructor
  · simp [needsCenterStage]
  · unfold centerStageState
    rw [if_neg (by norm_num), if_pos (by norm_num)]

/-- C5: when the incoming item lands at index `k` of a tier that
already held `n` items with `k < n` (so the final tier holds `n + 1`
items), the squeeze branch triggers; every already-placed item of that
tier at index `i ≥ k` is drawn shifted by `min(1, progress * 1.5)`
pitch-widths plus the jitter `sin(progress * 8 * π) * (1 -
pushProgress) * 2` on both axes, and at progress 1 it rests exactly
one pitch (110 px) to the right of its original position with the
jitter vanished. -/
theorem c5_squeeze_animation (tier : RankingTier) (n k i pt : ℕ)
    (hlen : tier.items.length = n + 1) (hkn : k < n) (hki : k ≤ i) :
    needsPositionReplacement tier k = true
    ∧ (∀ progress : ℝ,
        placedItemDrawPos true (needsPositionReplacement tier k) k i pt progress
          = (290 + ((i : ℝ) + min 1 (progress * 1.5)) * 110
               + Real.sin (progress * Real.pi * 8) * (1 - min 1 (progress * 1.5)) * 2,
             150 + (pt : ℝ) * (120 + 20)
               + Real.sin (progress * Real.pi * 8) * (1 - min 1 (progress * 1.5)) * 2 + 10))
    ∧ placedItemDrawPos true (needsPositionReplacement tier k) k i pt 1
        = ((290 + (i : ℝ) * 110) + 110, (150 + (pt : ℝ) * (120 + 20)) + 10) := by
  have hrepl : needsPositionReplacement tier k = true := by
    simp only [needsPositionReplacement, hlen, Bool.and_eq_true, decide_eq_true_eq]
    omega
  refine ⟨hrepl, ?_, ?_⟩
  · intro progress
    unfold placedItemDrawPos
    rw [if_pos ⟨rfl, hki, hrepl⟩]
    by_cases hpp : min (1 : ℝ) (progress * 1.5) < 1
    · rw [if_pos hpp]
    · rw [if_neg hpp]
      have hpp1 : min (1 : ℝ) (progress * 1.5) = 1 :=
        le_antisymm (min_le_left _ _) (not_lt.mp hpp)
      rw [hpp1]
      simp only [Prod.mk.injEq]
      exact ⟨by ring_nf, by ring_nf⟩
  · unfold placedItemDrawPos
    rw [if_pos ⟨rfl, hki, hrepl⟩]
    have hmin : min (1 : ℝ) ((1 : ℝ) * 1.5) = 1 := by norm_num
    rw [hmin, if_neg (lt_irrefl (1 : ℝ))]
    simp only [Prod.mk.injEq]
    constructor <;> ring_nf

/-- C5 witness: a two-item tier with target index 0 triggers the
squeeze, and at progress 1 the placed item at index 0 of tier row 0
rests one pitch right of its original slot. -/
theorem c5_witness :
    placedItemDrawPos true (needsPositionReplacement c5Tier 0) 0 0 0 1
      = ((290 + ((0 : ℕ) : ℝ) * 110) + 110, (150 + ((0 : ℕ) : ℝ) * (120 + 20)) + 10) :=
  (c5_squeeze_animation c5Tier 1 0 0 0 rfl (by decide) (by decide)).2.2

/-- C6 counterexample: a non-TTS section without raw audio whose
declared nominal duration is 0 gets a 3-second silent clip, not the
declared duration and not a TTS estimate. -/
theorem c6_counterexample :
    processSection ⟨true, none⟩ c6Sec = Except.ok ⟨some 3, 3⟩
    ∧ c6Sec.isTTS = false
    ∧ ¬ ((3 : ℚ) = c6Sec.duration) := by
  refine ⟨rfl, rfl, ?_⟩
  show ¬ ((3 : ℚ) = 0)
  norm_num

/-- C6 (amended): for a section without raw audio, the silent clip's
duration — recorded unchanged as the segment's exact duration — is the
TTS estimate `max(2, characterCount / 4)` for TTS sections with
nonempty text, otherwise the declared nominal duration when nonzero,
else the 3-second default. -/
theorem c6_amended_silent_durations (s : AudioSection) (oc : SectionOracle)
    (h : s.audioBlob = none) :
    processSection oc s = Except.ok
      ⟨some (if s.isTTS = true ∧ s.text ≠ "" then ttsEstimate s
             else if s.duration = 0 then 3 else s.duration),
       if s.isTTS = true ∧ s.text ≠ "" then ttsEstimate s
       else if s.duration = 0 then 3 else s.duration⟩ := by
  unfold processSection
  rw [h]
  unfold fallbackDecl
  rfl

/-- C6 witness: a TTS section with 5-character text and declared
duration 7 yields the estimate `max(2, 5/4) = 2` as both the silent
clip length and the recorded duration. -/
theorem c6_witness : processSection ⟨true, none⟩ c6SecTTS = Except.ok ⟨some 2, 2⟩ := by
  have h := c6_amended_silent_durations c6SecTTS ⟨true, none⟩ rfl
  rw [h]
  have hcond : c6SecTTS.isTTS = true ∧ c6SecTTS.text ≠ "" := ⟨rfl, by decide⟩
  rw [if_pos hcond]
  have he : ttsEstimate c6SecTTS = 2 := by
    unfold ttsEstimate
    have hl : c6SecTTS.text.length = 5 := rfl
    rw [hl]
    norm_num
  rw [he]

/-- C7 counterexample: a transcoded section with declared nominal
duration 0 and a failing probe records 3 seconds, not the declared
duration. -/
theorem c7_counterexample :
    processSection ⟨true, none⟩ c7Sec = Except.ok ⟨none, 3⟩
    ∧ ¬ ((3 : ℚ) = c7Sec.duration) := by
  refine ⟨rfl, ?_⟩
  show ¬ ((3 : ℚ) = 0)
  norm_num

/-- C7 (amended): when the transcode succeeds but the probe fails or
returns a non-positive value, the section completes without error and
records `declared || 3`, which is the declared nominal duration
whenever that is nonzero. -/
theorem c7_amended_probe_fallback (s : AudioSection) (oc : SectionOracle) (b : String)
    (hblob : s.audioBlob = some b) (htr : oc.transcodeOk = true)
    (hprobe : oc.probe = none ∨ ∃ d, oc.probe = some d ∧ d ≤ 0) :
    processSection oc s = Except.ok ⟨none, fallbackDecl s⟩
    ∧ (s.duration ≠ 0 → fallbackDecl s = s.duration) := by
  constructor
  · unfold processSection
    rw [hblob]
    show (if oc.transcodeOk = false then Except.error () else
        Except.ok (SectionOut.mk none (match oc.probe with
          | some d => if 0 < d then d else fallbackDecl s
          | none => fallbackDecl s))) = Except.ok (SectionOut.mk none (fallbackDecl s))
    rw [htr, if_neg (by decide : ¬(true = false))]
    cases hprobe with
    | inl hp => rw [hp]
    | inr hp =>
      obtain ⟨d, hpd, hd0⟩ := hp
      rw [hpd]
      show Except.ok (SectionOut.mk none (if 0 < d then d else fallbackDecl s))
        = Except.ok (SectionOut.mk none (fallbackDecl s))
      rw [if_neg (not_lt.mpr hd0)]
  · intro h0
    unfold fallbackDecl
    rw [if_neg h0]

/-- C7 witness: a transcoded section with declared duration 5 and a
probe returning -1 records 5 seconds and completes. -/
theorem c7_witness :
    processSection ⟨true, some (-1)⟩ c7SecPos = Except.ok ⟨none, fallbackDecl c7SecPos⟩
    ∧ (c7SecPos.duration ≠ 0 → fallbackDecl c7SecPos = c7SecPos.duration) :=
  c7_amended_probe_fallback c7SecPos ⟨true, some (-1)⟩ "data:audio/mpeg;base64,AAAA"
    rfl rfl (Or.inr ⟨-1, rfl, by norm_num⟩)

/-- C8: with the reference not yet cached, a successful decode is
fetched once and returned, and a second resolution of the same
reference answers from the cache with the identical bitmap — one
underlying fetch in total; a failed decode is not inserted into the
cache, and the caller `drawItemInTier` catches the propagated error
and draws the gradient placeholder instead of aborting. -/
theorem c8_cache_idempotent_and_error (decode : String → Option ℕ) (cache : ImageCache)
    (src : String) (item : RankingItem) (hfresh : cache.lookup src = none) :
    (∀ img, decode src = some img →
      (loadImageWithCache decode cache src).result = some img
      ∧ (loadImageWithCache decode (loadImageWithCache decode cache src).cache src).result
          = some img
      ∧ (loadImageWithCache decode cache src).fetches
          + (loadImageWithCache decode (loadImageWithCache decode cache src).cache src).fetches
          = 1)
    ∧ (decode src = none →
      (loadImageWithCache decode cache src).result = none
      ∧ (loadImageWithCache decode cache src).cache = cache)
    ∧ (item.image = some src → decode src = none →
      drawItemInTier decode cache item = (CellRender.gradientPlaceholder, cache)) := by
  refine ⟨?_, ?_, ?_⟩
  · intro img hd
    have h1 : loadImageWithCache decode cache src = ⟨some img, (src, img) :: cache, 1⟩ := by
      unfold loadImageWithCache
      rw [hfresh, hd]
    have h2 : loadImageWithCache decode ((src, img) :: cache) src
        = ⟨some img, (src, img) :: cache, 0⟩ := by
      unfold loadImageWithCache
      have hl : List.lookup src ((src, img) :: cache) = some img := by
        simp [List.lookup]
      rw [hl]
    rw [h1]
    refine ⟨rfl, ?_, ?_⟩
    · show (loadImageWithCache decode ((src, img) :: cache) src).result = some img
      rw [h2]
    · show 1 + (loadImageWithCache decode ((src, img) :: cache) src).fetches = 1
      rw [h2]
      rfl
  · intro hd
    have h1 : loadImageWithCache decode cache src = ⟨none, cache, 1⟩ := by
      unfold loadImageWithCache
      rw [hfresh, hd]
    rw [h1]
    exact ⟨rfl, rfl⟩
  · intro himg hd
    have h1 : loadImageWithCache decode cache src = ⟨none, cache, 1⟩ := by
      unfold loadImageWithCache
      rw [hfresh, hd]
    unfold drawItemInTier
    rw [himg]
    show (let r := loadImageWithCache decode cache src;
      match r.result with
      | some img => (CellRender.framedImage img, r.cache)
      | none => (CellRender.gradientPlaceholder, r.cache)) = (CellRender.gradientPlaceholder, cache)
    rw [h1]

/-- C8 witness: with an empty cache, source "a" decodes to bitmap 7
on the first call, the second call returns the same bitmap, and only
one fetch happens across the two calls. -/
theorem c8_witness :
    (loadImageWithCache c8Decode [] "a").result = some 7
    ∧ (loadImageWithCache c8Decode (loadImageWithCache c8Decode [] "a").cache "a").result
        = some 7
    ∧ (loadImageWithCache c8Decode [] "a").fetches
        + (loadImageWithCache c8Decode (loadImageWithCache c8Decode [] "a").cache "a").fetches
        = 1 :=
  (c8_cache_idempotent_and_error c8Decode [] "a" c8Item rfl).1 7 rfl

/-- Filtering a `filterMap` of `lookupReveal` by item id counts
exactly the history entries that resolve to that item. -/
theorem length_filter_filterMap_lookup (rd : RankingData) (x : String) :
    ∀ l : List DragHistoryEntry,
      ((l.filterMap (lookupReveal rd)).filter (fun r => decide (r.id = x))).length
        = (l.filter (resolvesTo rd x)).length := by
  intro l
  induction l with
  | nil => rfl
  | cons e rest ih =>
    rw [List.filterMap_cons, List.filter_cons]
    cases h : lookupReveal rd e with
    | none =>
      have hr : resolvesTo rd x e = false := by unfold resolvesTo; rw [h]
      rw [hr]
      exact ih
    | some r =>
      have hr : resolvesTo rd x e = decide (r.id = x) := by unfold resolvesTo; rw [h]
      rw [List.filter_cons, hr]
      by_cases hx : r.id = x <;> simp [hx, ih]

/-- C2 counterexample: with two same-tier events for item "x" (both
resolvable against the final document), the reveal order contains the
item twice, not exactly once. -/
theorem c2_counterexample :
    ((allItems exRD2).filter (fun r => decide (r.id = "x"))).length = 2 := by
  rfl

/-- C2 (amended): a history event contributes to the reveal order iff
its target tier in the final document still contains its item
(`length_filter_filterMap_lookup` + stable sorting); in particular,
when a two-event log for one item has its earlier event unresolvable —
the cross-tier reassignment case — the reveal order is exactly the
resolution of the later event, at that event's tier and slot. -/
theorem c2_amended_reveal_order (rd : RankingData) (e1 e2 : DragHistoryEntry) (r : RevealItem)
    (hh : rd.dragHistory = some [e1, e2])
    (hts : e1.timestamp ≤ e2.timestamp)
    (hx1 : lookupReveal rd e1 = none)
    (hx2 : lookupReveal rd e2 = some r) :
    allItems rd = [r]
    ∧ (∀ x : String,
        ((allItems rd).filter (fun q => decide (q.id = x))).length
          = ([e1, e2].filter (resolvesTo rd x)).length) := by
  have hsort : sortedHistory [e1, e2] = [e1, e2] := by
    unfold sortedHistory
    rw [List.insertionSort, List.insertionSort, List.insertionSort, List.orderedInsert,
      List.orderedInsert]
    rw [if_pos hts]
  have hall : allItems rd = (sortedHistory [e1, e2]).filterMap (lookupReveal rd) := by
    unfold allItems
    rw [hh]
    rfl
  constructor
  · rw [hall, hsort, List.filterMap_cons, hx1, List.filterMap_cons, hx2, List.filterMap_nil]
  · intro x
    rw [hall, hsort]
    exact length_filter_filterMap_lookup rd x [e1, e2]

/-- C2 witness: after the cross-tier reassignment document `exRD3`,
the reveal order holds item "x" exactly once, resolved from the later
event's tier `B`. -/
theorem c2_witness : allItems exRD3 = [⟨"x", "X", none, "B", some "bg-blue-300"⟩] :=
  (c2_amended_reveal_order exRD3 ⟨"x", "X", "A", "A", 1⟩ ⟨"x", "X", "B", "B", 2⟩
    ⟨"x", "X", none, "B", some "bg-blue-300"⟩ rfl (by decide) rfl rfl).1

/-- C1 counterexample: an encoder-stage failure after the working
directory was created returns the 500 error response with the working
directory still present, contradicting removal on every exit path. -/
theorem c1_counterexample :
    (runPost ⟨false, true, true, false⟩ ⟨false, []⟩).1 = PostOutcome.errorJson 500
    ∧ (runPost ⟨false, true, true, false⟩ ⟨false, []⟩).2.workdirExists = true :=
  ⟨rfl, rfl⟩

/-- C1 (amended): past the body-size precheck, the image cache is
cleared on both exit paths, but the working directory is removed only
on the success path — on every post-creation failure the 500 response
leaves it in place. -/
theorem c1_amended_lifecycle (oc : RenderOutcomes) (st : JobState)
    (hbody : oc.bodyTooLarge = false) :
    (runPost oc st).2.cache = []
    ∧ ((runPost oc st).1 = PostOutcome.videoResponse →
        (runPost oc st).2.workdirExists = false)
    ∧ ((runPost oc st).1 = PostOutcome.errorJson 500 →
        (runPost oc st).2.workdirExists = true) := by
  obtain ⟨b, a, f, e⟩ := oc
  have hb : b = false := hbody
  subst hb
  cases a <;> cases f <;> cases e <;>
    simp [runPost, clearImageCache, cleanupTempFiles]

/-- C1 witness: a fully successful job clears the cache and removes
the working directory. -/
theorem c1_witness :
    (runPost ⟨false, true, true, true⟩ ⟨false, []⟩).2.cache = []
    ∧ ((runPost ⟨false, true, true, true⟩ ⟨false, []⟩).1 = PostOutcome.videoResponse →
        (runPost ⟨false, true, true, true⟩ ⟨false, []⟩).2.workdirExists = false)
    ∧ ((runPost ⟨false, true, true, true⟩ ⟨false, []⟩).1 = PostOutcome.errorJson 500 →
        (runPost ⟨false, true, true, true⟩ ⟨false, []⟩).2.workdirExists = true) :=
  c1_amended_lifecycle ⟨false, true, true, true⟩ ⟨false, []⟩ rfl

end TierRanker
